import Mathlib

/-!
# Splashscript boilerplate: Header, Button, VersionItem, Sidebar

A shallow embedding of the four React components of `boilerplate.js`.

* A component is a function from its props and what `React.useState` hands
  it (the current value of its cell and the setter of that cell) to the
  elements it renders; an element carries the listener stored in its
  `onClick` / `onChange` prop.
* A listener yields the effects it performs. A setter call is a write
  addressed to a cell of the mounted tree; which cells a listener writes is
  decided by the body of the component that created it, and the runtime applies
  whatever writes it is handed.
* Activating an element hands a synthetic event to the listener stored in it,
  the way React does (`listener(event)`); an element without a listener
  ignores the activation.
* Functions supplied by the caller are not interpreted: every application of
  one is recorded, with the argument list it received, in a call log.
-/

namespace Splashscript

/-! ## Values, events and effects -/

/-- A function value supplied by the caller of a component (a handler prop).
Its body lives outside this layer; `id` tells two supplied functions apart. -/
structure SuppliedFn where
  id : Nat
  deriving DecidableEq, Repr

/-- The two kinds of DOM event the components listen to. -/
inductive EventType
  | click
  | change
  deriving DecidableEq, Repr

/-- The part of `event.target` the components read: `event.target.value`. -/
structure EventTarget where
  value : String
  deriving DecidableEq, Repr

/-- The event object React passes to a listener. -/
structure SyntheticEvent where
  type : EventType
  target : EventTarget
  deriving DecidableEq, Repr

/-- The JavaScript values that reach a supplied function from this layer. -/
inductive Value
  | str (s : String)
  | event (e : SyntheticEvent)
  deriving DecidableEq, Repr

/-- One application of a supplied function: which function, and the full
argument list it was applied to. -/
structure Call where
  fn : SuppliedFn
  args : List Value
  deriving DecidableEq, Repr

/-- The error raised by applying `undefined` as a function. -/
inductive JsError
  | notAFunction
  deriving DecidableEq, Repr

/-- What running a listener can do: call a `useState` setter, which is a
write `w` to a cell of the mounted tree (`W` is the type of the writes the
tree accepts), or apply a supplied function. -/
inductive Effect (W : Type)
  | set (w : W)
  | call (c : Call)

/-- A function value stored in an element prop: either a supplied function
passed through untouched, or an arrow function written in the component, which
receives the event and yields its effects (or throws). -/
inductive JsFn (W : Type)
  | supplied (f : SuppliedFn)
  | closure (body : SyntheticEvent → Except JsError (List (Effect W)))

/-- The expression `f(args)` inside a component body, where `f` is a handler
prop that may be `undefined`. -/
def callProp {W : Type} (f : Option SuppliedFn) (args : List Value) :
    Except JsError (List (Effect W)) :=
  match f with
  | none => .error .notAFunction
  | some g => .ok [.call ⟨g, args⟩]

/-- React applying a listener: the listener receives the synthetic event as
its only argument. -/
def JsFn.invoke {W : Type} : JsFn W → SyntheticEvent → Except JsError (List (Effect W))
  | .supplied f, e => .ok [.call ⟨f, [.event e]⟩]
  | .closure body, e => body e

/-- The state left by a list of effects: the writes are applied in order,
each by `apply`, to whatever cell it addresses. -/
def applyState {W S : Type} (apply : W → S → S) : List (Effect W) → S → S
  | [], s => s
  | .set w :: rest, s => applyState apply rest (apply w s)
  | .call _ :: rest, s => applyState apply rest s

/-- The applications of supplied functions made by a list of effects, in order. -/
def callsOf {W : Type} : List (Effect W) → List Call
  | [] => []
  | .set _ :: rest => callsOf rest
  | .call c :: rest => c :: callsOf rest

/-- The result of one activation: the state afterwards, the applications of
supplied functions it made, and the error it raised, if any. -/
structure Outcome (S : Type) where
  state : S
  calls : List Call
  error : Option JsError

/-- Activating an element whose listener prop holds `l`, in a mounted tree
whose state is `s` and whose writes are applied by `apply`.
A prop that is `undefined` registers no listener. A listener that throws
leaves the state as it was. -/
def fire {W S : Type} (apply : W → S → S) (l : Option (JsFn W)) (e : SyntheticEvent)
    (s : S) : Outcome S :=
  match l with
  | none => ⟨s, [], none⟩
  | some f =>
    match f.invoke e with
    | .error err => ⟨s, [], some err⟩
    | .ok effs => ⟨applyState apply effs s, callsOf effs, none⟩

/-- The writes of a component mounted on its own: the tree has the one cell
of that component, and a write replaces its value. -/
def setCell {S : Type} (next : S) (_ : S) : S := next

/-- The click event delivered to a `<button>`; a button without a `value`
attribute reports the empty string as its value. -/
def clickEvent : SyntheticEvent := ⟨.click, ⟨""⟩⟩

/-- The change event of a text entry whose full content is now `v`. -/
def changeEvent (v : String) : SyntheticEvent := ⟨.change, ⟨v⟩⟩

/-! ## Rendered elements -/

/-- A child of a rendered `<button>`: an `<i>` icon or a text node. -/
inductive Child
  | icon (className : String)
  | text (s : String)
  deriving DecidableEq, Repr

/-- A rendered `<button>`. -/
structure ButtonElement (W : Type) where
  onClick : Option (JsFn W)
  className : String
  children : List Child

/-- A rendered `<textarea>`. -/
structure TextareaElement (W : Type) where
  className : String
  rows : String
  placeholder : String
  value : String
  onChange : Option (JsFn W)

/-! ## Button -/

/-- Props of `Button`. -/
structure ButtonProps where
  onClick : Option SuppliedFn
  color : String
  icon : String
  text : String

/-- The component `Button`: one `<button>` whose `onClick` is the prop itself. -/
def Button {W : Type} (p : ButtonProps) : ButtonElement W where
  onClick := p.onClick.map JsFn.supplied
  className := "bg-" ++ p.color ++ "-500 hover:bg-" ++ p.color ++
    "-600 transition text-white py-2 px-5 rounded shadow flex items-center"
  children := [.icon ("fas fa-" ++ p.icon ++ " mr-2"), .text p.text]

/-- Activating a rendered `Button` a number of times in a row; the component
is stateless, so the calls of the activations are just appended. -/
def Button.activations (p : ButtonProps) : Nat → Outcome Unit
  | 0 => ⟨(), [], none⟩
  | n + 1 =>
    let before := Button.activations p n
    let o := fire setCell (Button p).onClick clickEvent before.state
    ⟨o.state, before.calls ++ o.calls, before.error <|> o.error⟩

/-! ## Header -/

/-- Props of `Header`. -/
structure HeaderProps where
  onSave : Option SuppliedFn
  onLoad : Option SuppliedFn
  onDelete : Option SuppliedFn
  onLogout : Option SuppliedFn

/-- The four controls rendered by `Header`. -/
structure HeaderView where
  save : ButtonElement Unit
  load : ButtonElement Unit
  delete : ButtonElement Unit
  logout : ButtonElement Unit

/-- The component `Header`: three `Button`s and a plain logout `<button>`. -/
def Header (p : HeaderProps) : HeaderView where
  save := Button ⟨p.onSave, "green", "save", "Save"⟩
  load := Button ⟨p.onLoad, "blue", "upload", "Load"⟩
  delete := Button ⟨p.onDelete, "red", "trash", "Delete"⟩
  logout :=
    { onClick := p.onLogout.map JsFn.supplied
      className := "text-gray-700 hover:text-gray-900 transition flex items-center"
      children := [.icon "fas fa-sign-out-alt text-2xl"] }

/-- Names for the four controls of a `Header`. -/
inductive HeaderControl
  | save
  | load
  | delete
  | logout
  deriving DecidableEq, Repr

/-- The rendered element behind a control name. -/
def HeaderView.control (v : HeaderView) : HeaderControl → ButtonElement Unit
  | .save => v.save
  | .load => v.load
  | .delete => v.delete
  | .logout => v.logout

/-- The handler prop that the source wires to a control. -/
def HeaderProps.handler (p : HeaderProps) : HeaderControl → Option SuppliedFn
  | .save => p.onSave
  | .load => p.onLoad
  | .delete => p.onDelete
  | .logout => p.onLogout

/-- Activating one control of a rendered `Header`. -/
def Header.activate (p : HeaderProps) (c : HeaderControl) : Outcome Unit :=
  fire setCell ((Header p).control c).onClick clickEvent ()

/-! ## VersionItem -/

/-- Props of `VersionItem`. -/
structure VersionItemProps where
  version : String
  description : String

/-- What `VersionItem` renders: the version line, the description line with
its class name, and the toggle `<button>`. -/
structure VersionItemView (W : Type) where
  versionText : String
  descriptionClassName : String
  descriptionText : String
  toggle : ButtonElement W

/-- The initial value of the `expanded` cell: `React.useState(false)`. -/
def VersionItem.initial : Bool := false

/-- The component `VersionItem`, rendered with what `React.useState(false)`
returned: the current value `expanded` of its cell and the setter
`setExpanded` of that cell. The toggle listener captures the value of this
render and calls `setExpanded(!expanded)`, nothing else. -/
def VersionItem {W : Type} (p : VersionItemProps) (expanded : Bool)
    (setExpanded : Bool → W) : VersionItemView W where
  versionText := p.version
  descriptionClassName := "text-sm " ++ (if expanded then "" else "truncate")
  descriptionText := p.description
  toggle :=
    { onClick := some (.closure fun _ => .ok [.set (setExpanded (!expanded))])
      className := "text-blue-500 text-sm ml-2"
      children := [.text (if expanded then "Less" else "More")] }

/-- Activating the More/Less toggle of a `VersionItem` mounted on its own:
its setter writes the one cell of the tree. -/
def VersionItem.toggle (p : VersionItemProps) (expanded : Bool) : Outcome Bool :=
  fire setCell (VersionItem p expanded id).toggle.onClick clickEvent expanded

/-- The `expanded` cell after activating the toggle `n` times, each
activation acting on the render of the state left by the previous one. -/
def VersionItem.toggleTimes (p : VersionItemProps) : Nat → Bool → Bool
  | 0, expanded => expanded
  | n + 1, expanded => VersionItem.toggleTimes p n (VersionItem.toggle p expanded).state

/-- The class tokens of a `className` string (split at blanks, empty pieces
dropped). -/
def classTokens (className : String) : List String :=
  ((className.toList.splitOn ' ').map String.mk).filter fun t => t ≠ ""

/-- The description of a rendered `VersionItem` is displayed truncated when
its element carries the `truncate` class. -/
def VersionItemView.truncated {W : Type} (v : VersionItemView W) : Bool :=
  decide ("truncate" ∈ classTokens v.descriptionClassName)

/-- The label shown on the toggle of a rendered `VersionItem`. -/
def VersionItemView.label {W : Type} (v : VersionItemView W) : List Child :=
  v.toggle.children

/-! ## Sidebar -/

/-- Props of `Sidebar`. -/
structure SidebarProps where
  handleUpdate : Option SuppliedFn
  handleScaffold : Option SuppliedFn
  handleRegenerate : Option SuppliedFn

/-- What `Sidebar` renders: the text entry, the three `VersionItem` children
(by their props, in document order), and the three action buttons. -/
structure SidebarView (W : Type) where
  textarea : TextareaElement W
  items : Fin 3 → VersionItemProps
  update : ButtonElement W
  scaffold : ButtonElement W
  regenerate : ButtonElement W

/-- The initial value of the `inputText` cell: `React.useState("")`. -/
def Sidebar.initial : String := ""

/-- The component `Sidebar`, rendered with what `React.useState("")`
returned: the current value `inputText` of its cell and the setter
`setInputText` of that cell. `handleInputChange` calls
`setInputText(event.target.value)`; `handleUpdateClick` applies the
`handleUpdate` prop to the `inputText` of this render; Scaffold and Regenerate
hold their props directly. The children receive `version` and `description`
only. -/
def Sidebar {W : Type} (p : SidebarProps) (inputText : String)
    (setInputText : String → W) : SidebarView W :=
  let handleInputChange : JsFn W :=
    .closure fun event => .ok [.set (setInputText event.target.value)]
  let handleUpdateClick : JsFn W :=
    .closure fun _ => callProp p.handleUpdate [.str inputText]
  { textarea :=
      { className := "w-full border border-gray-300 rounded px-4 py-2"
        rows := "4"
        placeholder := "Describe the changes you want..."
        value := inputText
        onChange := some handleInputChange }
    items := ![⟨"Version 1.0", "Initial release"⟩, ⟨"Version 1.1", "Bug fixes"⟩,
      ⟨"Version 1.2", "Performance improvements"⟩]
    update :=
      { onClick := some handleUpdateClick
        className := "bg-blue-500 text-white px-4 py-2 rounded w-full mb-4"
        children := [.text "Update"] }
    scaffold :=
      { onClick := p.handleScaffold.map JsFn.supplied
        className := "bg-gray-200 text-gray-700 px-4 py-2 rounded w-1/2"
        children := [.text "Scaffold"] }
    regenerate :=
      { onClick := p.handleRegenerate.map JsFn.supplied
        className := "bg-gray-200 text-gray-700 px-4 py-2 rounded w-1/2"
        children := [.text "Regenerate"] } }

/-- The state held by a mounted `Sidebar` and its children: the `inputText`
cell of the `Sidebar` and the `expanded` cell of each of the three
`VersionItem` instances. -/
structure SidebarTree where
  inputText : String
  expanded : Fin 3 → Bool

/-- A freshly mounted `Sidebar`: every cell holds its `useState` default. -/
def SidebarTree.mount : SidebarTree :=
  ⟨Sidebar.initial, fun _ => VersionItem.initial⟩

/-- The user actions on a mounted `Sidebar`. -/
inductive SidebarEvent
  | change (value : String)
  | clickUpdate
  | clickScaffold
  | clickRegenerate
  | clickToggle (i : Fin 3)
  deriving DecidableEq, Repr

/-- The writes a mounted `Sidebar` tree accepts, one kind per `useState`
cell: the setter of the `Sidebar` cell, and the setter of the cell of the
`i`-th `VersionItem`. -/
inductive SidebarWrite
  | inputText (next : String)
  | expanded (i : Fin 3) (next : Bool)

/-- Applying a write to the tree: the addressed cell takes the new value. -/
def SidebarTree.write : SidebarWrite → SidebarTree → SidebarTree
  | .inputText next, t => { t with inputText := next }
  | .expanded i next, t => { t with expanded := Function.update t.expanded i next }

/-- The `Sidebar` of a mounted tree, rendered from the current cells. -/
def SidebarTree.sidebar (p : SidebarProps) (t : SidebarTree) : SidebarView SidebarWrite :=
  Sidebar p t.inputText SidebarWrite.inputText

/-- The `i`-th `VersionItem` of a mounted tree, rendered with the props the
`Sidebar` gives it and with its own cell and setter. -/
def SidebarTree.item (p : SidebarProps) (t : SidebarTree) (i : Fin 3) :
    VersionItemView SidebarWrite :=
  VersionItem ((SidebarTree.sidebar p t).items i) (t.expanded i) (SidebarWrite.expanded i)

/-- One user action on a mounted `Sidebar`: the tree is rendered from its
current cells, the listener of the targeted element runs, and every write the
listener made is applied to the tree, whichever cell it addresses. -/
def SidebarTree.dispatch (p : SidebarProps) (t : SidebarTree) :
    SidebarEvent → Outcome SidebarTree
  | .change v =>
    fire SidebarTree.write (SidebarTree.sidebar p t).textarea.onChange (changeEvent v) t
  | .clickUpdate =>
    fire SidebarTree.write (SidebarTree.sidebar p t).update.onClick clickEvent t
  | .clickScaffold =>
    fire SidebarTree.write (SidebarTree.sidebar p t).scaffold.onClick clickEvent t
  | .clickRegenerate =>
    fire SidebarTree.write (SidebarTree.sidebar p t).regenerate.onClick clickEvent t
  | .clickToggle i =>
    fire SidebarTree.write (SidebarTree.item p t i).toggle.onClick clickEvent t

/-- The result of a sequence of user actions: the final tree, every
application of a supplied function in order, and every error raised. -/
structure Run where
  tree : SidebarTree
  calls : List Call
  errors : List JsError

/-- A sequence of user actions, each handled to completion (state applied,
tree rendered again) before the next one. An error raised by a listener does
not unmount the tree. -/
def SidebarTree.run (p : SidebarProps) : List SidebarEvent → SidebarTree → Run
  | [], t => ⟨t, [], []⟩
  | e :: es, t =>
    let o := SidebarTree.dispatch p t e
    let r := SidebarTree.run p es o.state
    ⟨r.tree, o.calls ++ r.calls, o.error.toList ++ r.errors⟩

/-! ## Auxiliary facts about runs -/

theorem SidebarTree.run_append (p : SidebarProps) (es fs : List SidebarEvent)
    (t : SidebarTree) :
    SidebarTree.run p (es ++ fs) t =
      ⟨(SidebarTree.run p fs (SidebarTree.run p es t).tree).tree,
        (SidebarTree.run p es t).calls ++
          (SidebarTree.run p fs (SidebarTree.run p es t).tree).calls,
        (SidebarTree.run p es t).errors ++
          (SidebarTree.run p fs (SidebarTree.run p es t).tree).errors⟩ := by
  induction es generalizing t with
  | nil => simp [SidebarTree.run]
  | cons e es ih => simp [SidebarTree.run, ih, List.append_assoc]

theorem SidebarTree.dispatch_change (p : SidebarProps) (t : SidebarTree) (v : String) :
    SidebarTree.dispatch p t (.change v) = ⟨⟨v, t.expanded⟩, [], none⟩ := by
  simp [SidebarTree.dispatch, SidebarTree.sidebar, SidebarTree.write, Sidebar, fire,
     JsFn.invoke, applyState, callsOf, changeEvent]

theorem SidebarTree.dispatch_clickUpdate (hu : SuppliedFn) (hs hr : Option SuppliedFn)
    (t : SidebarTree) :
    SidebarTree.dispatch ⟨some hu, hs, hr⟩ t .clickUpdate =
      ⟨t, [⟨hu, [.str t.inputText]⟩], none⟩ := by
  simp [SidebarTree.dispatch, SidebarTree.sidebar, SidebarTree.write, Sidebar, fire,
     JsFn.invoke, callProp, applyState, callsOf]

theorem SidebarTree.dispatch_clickToggle (p : SidebarProps) (t : SidebarTree)
    (i : Fin 3) :
    SidebarTree.dispatch p t (.clickToggle i) =
      ⟨⟨t.inputText, Function.update t.expanded i (!t.expanded i)⟩, [], none⟩ := by
  simp [SidebarTree.dispatch, SidebarTree.item, SidebarTree.write, VersionItem, fire,
    JsFn.invoke, applyState, callsOf]

theorem SidebarTree.run_changes (p : SidebarProps) (vs : List String) (v : String)
    (t : SidebarTree) :
    SidebarTree.run p ((vs ++ [v]).map SidebarEvent.change) t =
      ⟨⟨v, t.expanded⟩, [], []⟩ := by
  induction vs generalizing t with
  | nil => simp [SidebarTree.run, SidebarTree.dispatch_change]
  | cons w ws ih =>
    have h := ih ⟨w, t.expanded⟩
    simp only [List.cons_append, List.map_cons, SidebarTree.run,
      SidebarTree.dispatch_change, List.append_eq]
    rw [h]
    simp

theorem SidebarTree.run_updates (hu : SuppliedFn) (hs hr : Option SuppliedFn)
    (n : Nat) (t : SidebarTree) :
    SidebarTree.run ⟨some hu, hs, hr⟩ (List.replicate n .clickUpdate) t =
      ⟨t, List.replicate n ⟨hu, [.str t.inputText]⟩, []⟩ := by
  induction n with
  | zero => simp [SidebarTree.run]
  | succ k ih =>
    simp [List.replicate_succ, SidebarTree.run, SidebarTree.dispatch_clickUpdate, ih]

theorem Button.activations_present (f : SuppliedFn) (color icon text : String) (n : Nat) :
    Button.activations ⟨some f, color, icon, text⟩ n =
      ⟨(), List.replicate n ⟨f, [.event clickEvent]⟩, none⟩ := by
  induction n with
  | zero => simp [Button.activations]
  | succ k ih =>
    simp [Button.activations, ih, Button, fire, JsFn.invoke, applyState, callsOf,
      setCell, List.replicate_succ' ]

theorem Button.activations_absent (color icon text : String) (n : Nat) :
    Button.activations ⟨none, color, icon, text⟩ n = ⟨(), [], none⟩ := by
  induction n with
  | zero => simp [Button.activations]
  | succ k ih => simp [Button.activations, ih, Button, fire]

theorem Header.activate_eq (p : HeaderProps) (c : HeaderControl) :
    Header.activate p c =
      ⟨(), (p.handler c).toList.map (fun f => ⟨f, [.event clickEvent]⟩), none⟩ := by
  cases c <;>
    simp only [Header.activate, Header, HeaderView.control, HeaderProps.handler, Button]
  · cases p.onSave <;> simp [fire, JsFn.invoke, applyState, callsOf]
  · cases p.onLoad <;> simp [fire, JsFn.invoke, applyState, callsOf]
  · cases p.onDelete <;> simp [fire, JsFn.invoke, applyState, callsOf]
  · cases p.onLogout <;> simp [fire, JsFn.invoke, applyState, callsOf]

theorem VersionItem.toggle_state (p : VersionItemProps) (expanded : Bool) :
    (VersionItem.toggle p expanded).state = !expanded := by
  simp [VersionItem.toggle, VersionItem, fire, JsFn.invoke, applyState, setCell]

theorem VersionItem.toggleTimes_succ (p : VersionItemProps) (n : Nat) (expanded : Bool) :
    VersionItem.toggleTimes p (n + 1) expanded =
      !(VersionItem.toggleTimes p n expanded) := by
  induction n generalizing expanded with
  | zero => simp [VersionItem.toggleTimes, VersionItem.toggle_state]
  | succ k ih =>
    rw [VersionItem.toggleTimes, ih]
    simp [VersionItem.toggleTimes]

theorem VersionItem.truncate_tokens :
    classTokens "text-sm truncate" = ["text-sm", "truncate"] := by
  decide

theorem VersionItem.full_tokens : classTokens "text-sm " = ["text-sm"] := by
  decide

/-! ## Sidebar: text capture and Update -/

/-- C1: on a freshly mounted Sidebar, after any non-empty sequence of
text-change events whose last value is `T`, activating Update makes the whole
run contain exactly one application of a supplied function: `handleUpdate`
applied to the single argument `T`, unchanged. With no text-change event the
argument is the empty string. -/
theorem sidebar_update_receives_last_text (hu : SuppliedFn) (hs hr : Option SuppliedFn)
    (vs : List String) (T : String) :
    (SidebarTree.run ⟨some hu, hs, hr⟩
        ((vs ++ [T]).map SidebarEvent.change ++ [.clickUpdate]) SidebarTree.mount).calls =
      [⟨hu, [.str T]⟩] ∧
    (SidebarTree.run ⟨some hu, hs, hr⟩
        ((vs ++ [T]).map SidebarEvent.change ++ [.clickUpdate]) SidebarTree.mount).errors =
      [] ∧
    (SidebarTree.run ⟨some hu, hs, hr⟩ [.clickUpdate] SidebarTree.mount).calls =
      [⟨hu, [.str ""]⟩] := by
  refine ⟨?_, ?_, ?_⟩
  · rw [SidebarTree.run_append, SidebarTree.run_changes]
    simp [SidebarTree.run, SidebarTree.dispatch_clickUpdate]
  · rw [SidebarTree.run_append, SidebarTree.run_changes]
    simp [SidebarTree.run, SidebarTree.dispatch_clickUpdate]
  · simp [SidebarTree.run, SidebarTree.dispatch_clickUpdate, SidebarTree.mount,
      Sidebar.initial]

/-- C3: no click changes `inputText` (Update, Scaffold, Regenerate and the
three toggles leave it as it was, whatever the props), and from a state whose
`inputText` is `T`, `n` successive Update activations apply `handleUpdate`
`n` times, each time to `T`, raise nothing, and leave `inputText` equal to `T`. -/
theorem sidebar_clicks_keep_inputText (p : SidebarProps) (t : SidebarTree)
    (hu : SuppliedFn) (hs hr : Option SuppliedFn) (T : String) (ex : Fin 3 → Bool)
    (n : Nat) :
    (SidebarTree.dispatch p t .clickUpdate).state.inputText = t.inputText ∧
    (SidebarTree.dispatch p t .clickScaffold).state.inputText = t.inputText ∧
    (SidebarTree.dispatch p t .clickRegenerate).state.inputText = t.inputText ∧
    (∀ i, (SidebarTree.dispatch p t (.clickToggle i)).state.inputText = t.inputText) ∧
    (SidebarTree.run ⟨some hu, hs, hr⟩ (List.replicate n .clickUpdate) ⟨T, ex⟩).calls =
      List.replicate n ⟨hu, [.str T]⟩ ∧
    (SidebarTree.run ⟨some hu, hs, hr⟩ (List.replicate n .clickUpdate) ⟨T, ex⟩).errors =
      [] ∧
    (SidebarTree.run ⟨some hu, hs, hr⟩
      (List.replicate n .clickUpdate) ⟨T, ex⟩).tree.inputText = T := by
  refine ⟨?_, ?_, ?_, ?_, ?_, ?_, ?_⟩
  · cases hp : p.handleUpdate <;>
      simp [SidebarTree.dispatch, SidebarTree.sidebar, SidebarTree.write, Sidebar, fire,
        JsFn.invoke, callProp, applyState, hp]
  · cases hp : p.handleScaffold <;>
      simp [SidebarTree.dispatch, SidebarTree.sidebar, SidebarTree.write, Sidebar, fire,
        JsFn.invoke, applyState, hp]
  · cases hp : p.handleRegenerate <;>
      simp [SidebarTree.dispatch, SidebarTree.sidebar, SidebarTree.write, Sidebar, fire,
        JsFn.invoke, applyState, hp]
  · intro i
    rw [SidebarTree.dispatch_clickToggle]
  · rw [SidebarTree.run_updates]
  · rw [SidebarTree.run_updates]
  · rw [SidebarTree.run_updates]

/-- C10: with `handleUpdate` absent, activating Update raises an error for
every `inputText`, applies no supplied function and leaves the tree as it was;
with `handleScaffold` (resp. `handleRegenerate`) absent, activating Scaffold
(resp. Regenerate) raises no error, applies nothing and leaves the tree as it
was. -/
theorem sidebar_absent_handleUpdate_raises (hu hs hr : Option SuppliedFn)
    (t : SidebarTree) :
    (SidebarTree.dispatch ⟨none, hs, hr⟩ t .clickUpdate).error = some .notAFunction ∧
    (SidebarTree.dispatch ⟨none, hs, hr⟩ t .clickUpdate).calls = [] ∧
    (SidebarTree.dispatch ⟨none, hs, hr⟩ t .clickUpdate).state = t ∧
    (SidebarTree.dispatch ⟨hu, none, hr⟩ t .clickScaffold).error = none ∧
    (SidebarTree.dispatch ⟨hu, none, hr⟩ t .clickScaffold).calls = [] ∧
    (SidebarTree.dispatch ⟨hu, none, hr⟩ t .clickScaffold).state = t ∧
    (SidebarTree.dispatch ⟨hu, hs, none⟩ t .clickRegenerate).error = none ∧
    (SidebarTree.dispatch ⟨hu, hs, none⟩ t .clickRegenerate).calls = [] ∧
    (SidebarTree.dispatch ⟨hu, hs, none⟩ t .clickRegenerate).state = t := by
  simp [SidebarTree.dispatch, SidebarTree.sidebar, SidebarTree.write, Sidebar, fire,
     JsFn.invoke, callProp]

/-! ## Sidebar: Scaffold and Regenerate -/

/-- C4, as stated, fails: the only call made by activating Scaffold does not
have an empty argument list. -/
theorem sidebar_scaffold_zero_args_fails :
    ¬ (∀ c ∈ (SidebarTree.dispatch ⟨some ⟨0⟩, some ⟨1⟩, some ⟨2⟩⟩ SidebarTree.mount
        .clickScaffold).calls, c.args = []) := by
  decide

/-- C4 (amended): activating Scaffold applies `handleScaffold` exactly once,
to the click event as its only argument, and applies nothing else; activating
Regenerate applies `handleRegenerate` exactly once, to the click event as its
only argument, and applies nothing else. Neither raises an error. -/
theorem sidebar_scaffold_regenerate_calls (hu hs hr : Option SuppliedFn)
    (f : SuppliedFn) (t : SidebarTree) :
    (SidebarTree.dispatch ⟨hu, some f, hr⟩ t .clickScaffold).calls =
      [⟨f, [.event clickEvent]⟩] ∧
    (SidebarTree.dispatch ⟨hu, some f, hr⟩ t .clickScaffold).error = none ∧
    (SidebarTree.dispatch ⟨hu, hs, some f⟩ t .clickRegenerate).calls =
      [⟨f, [.event clickEvent]⟩] ∧
    (SidebarTree.dispatch ⟨hu, hs, some f⟩ t .clickRegenerate).error = none := by
  simp [SidebarTree.dispatch, SidebarTree.sidebar, SidebarTree.write, Sidebar, fire,
     JsFn.invoke, callsOf]

/-! ## Button and Header -/

/-- C5, as stated, fails: one activation of a Button makes a call whose
argument list is not empty. -/
theorem button_zero_args_fails :
    ¬ (∀ c ∈ (Button.activations ⟨some ⟨0⟩, "green", "save", "Save"⟩ 1).calls,
        c.args = []) := by
  decide

/-- C5 (amended): for a Button whose `onClick` is the supplied function `f`,
`n` activations make exactly `n` applications of `f`, each to the click event
as its only argument, and raise nothing. -/
theorem button_activations_calls (f : SuppliedFn) (color icon text : String) (n : Nat) :
    (Button.activations ⟨some f, color, icon, text⟩ n).calls =
      List.replicate n ⟨f, [.event clickEvent]⟩ ∧
    (Button.activations ⟨some f, color, icon, text⟩ n).calls.length = n ∧
    (Button.activations ⟨some f, color, icon, text⟩ n).error = none := by
  rw [Button.activations_present]
  simp

/-- C6, as stated, fails: the call made by activating Save does not have an
empty argument list. -/
theorem header_zero_args_fails :
    ¬ (∀ c ∈ (Header.activate ⟨some ⟨0⟩, some ⟨1⟩, some ⟨2⟩, some ⟨3⟩⟩ .save).calls,
        c.args = []) := by
  decide

/-- C6 (amended): activating the Save, Load, Delete or logout control of a
Header makes exactly one application of a supplied function, namely of
`onSave`, `onLoad`, `onDelete` or `onLogout` respectively, to the click event
as its only argument, and raises nothing. -/
theorem header_control_calls_own_handler (fs fl fd fo : SuppliedFn) :
    (Header.activate ⟨some fs, some fl, some fd, some fo⟩ .save).calls =
      [⟨fs, [.event clickEvent]⟩] ∧
    (Header.activate ⟨some fs, some fl, some fd, some fo⟩ .load).calls =
      [⟨fl, [.event clickEvent]⟩] ∧
    (Header.activate ⟨some fs, some fl, some fd, some fo⟩ .delete).calls =
      [⟨fd, [.event clickEvent]⟩] ∧
    (Header.activate ⟨some fs, some fl, some fd, some fo⟩ .logout).calls =
      [⟨fo, [.event clickEvent]⟩] ∧
    (∀ c, (Header.activate ⟨some fs, some fl, some fd, some fo⟩ c).error = none) := by
  simp [Header.activate_eq, HeaderProps.handler]

/-- C9: a Button without `onClick` ignores every activation (no call, no
error); a Header control whose handler is absent ignores its activation (no
call, no error); and what activating a Header control does depends only on
the handler wired to that control, so the other controls are unaffected. -/
theorem absent_handler_is_noop (color icon text : String) (n : Nat)
    (p q : HeaderProps) (c d : HeaderControl)
    (hc : p.handler c = none) (hd : q.handler d = p.handler d) :
    (Button.activations ⟨none, color, icon, text⟩ n).calls = [] ∧
    (Button.activations ⟨none, color, icon, text⟩ n).error = none ∧
    (Header.activate p c).calls = [] ∧
    (Header.activate p c).error = none ∧
    (Header.activate q d).calls = (Header.activate p d).calls ∧
    (Header.activate q d).error = (Header.activate p d).error := by
  simp [Button.activations_absent, Header.activate_eq, hc, hd]

/-- Witness for C9: Save and Delete unwired, Load and logout wired. -/
theorem absent_handler_is_noop_witness :
    HeaderProps.handler ⟨none, some ⟨1⟩, none, some ⟨3⟩⟩ .save = none ∧
    HeaderProps.handler ⟨some ⟨0⟩, some ⟨1⟩, some ⟨2⟩, some ⟨3⟩⟩ .load =
      HeaderProps.handler ⟨none, some ⟨1⟩, none, some ⟨3⟩⟩ .load ∧
    (Button.activations ⟨none, "red", "trash", "Delete"⟩ 3).calls = [] ∧
    (Button.activations ⟨none, "red", "trash", "Delete"⟩ 3).error = none ∧
    (Header.activate ⟨none, some ⟨1⟩, none, some ⟨3⟩⟩ .save).calls = [] ∧
    (Header.activate ⟨none, some ⟨1⟩, none, some ⟨3⟩⟩ .save).error = none ∧
    (Header.activate ⟨some ⟨0⟩, some ⟨1⟩, some ⟨2⟩, some ⟨3⟩⟩ .load).calls =
      (Header.activate ⟨none, some ⟨1⟩, none, some ⟨3⟩⟩ .load).calls ∧
    (Header.activate ⟨some ⟨0⟩, some ⟨1⟩, some ⟨2⟩, some ⟨3⟩⟩ .load).error =
      (Header.activate ⟨none, some ⟨1⟩, none, some ⟨3⟩⟩ .load).error :=
  ⟨rfl, rfl, absent_handler_is_noop "red" "trash" "Delete" 3
    ⟨none, some ⟨1⟩, none, some ⟨3⟩⟩ ⟨some ⟨0⟩, some ⟨1⟩, some ⟨2⟩, some ⟨3⟩⟩
    .save .load rfl rfl⟩

/-! ## VersionItem -/

/-- C2: on a freshly mounted VersionItem, after `n` activations of the toggle
`expanded` is true exactly when `n` is odd (false when `n` is even); and
from any state two activations give the state back. -/
theorem versionItem_toggle_parity (p : VersionItemProps) (n : Nat) (b : Bool) :
    VersionItem.toggleTimes p n VersionItem.initial = decide (n % 2 = 1) ∧
    VersionItem.toggleTimes p 2 b = b := by
  constructor
  · induction n with
    | zero => simp [VersionItem.toggleTimes, VersionItem.initial]
    | succ k ih =>
      rw [VersionItem.toggleTimes_succ, ih]
      rcases Nat.mod_two_eq_zero_or_one k with h | h <;>
        simp [Nat.succ_mod_two_eq_one_iff, h]
  · simp [VersionItem.toggleTimes, VersionItem.toggle_state]

/-- C7: in every state of a VersionItem (so in every reachable one) the
toggle shows exactly one text, "More" or "Less"; it shows "More" exactly when
`expanded` is false, and exactly when the description carries the `truncate`
class; it shows "Less" exactly when `expanded` is true, and exactly when the
description does not carry the `truncate` class. -/
theorem versionItem_label_matches_truncation {W : Type} (p : VersionItemProps)
    (expanded : Bool) (setExpanded : Bool → W) :
    ((VersionItem p expanded setExpanded).label = [.text "More"] ↔ expanded = false) ∧
    ((VersionItem p expanded setExpanded).label = [.text "More"] ↔
      (VersionItem p expanded setExpanded).truncated = true) ∧
    ((VersionItem p expanded setExpanded).label = [.text "Less"] ↔ expanded = true) ∧
    ((VersionItem p expanded setExpanded).label = [.text "Less"] ↔
      (VersionItem p expanded setExpanded).truncated = false) := by
  cases expanded
  · simp [VersionItem, VersionItemView.label, VersionItemView.truncated,
      VersionItem.truncate_tokens]
  · simp [VersionItem, VersionItemView.label, VersionItemView.truncated,
      VersionItem.full_tokens]

/-- C8: activating the toggle of the `i`-th VersionItem of a Sidebar negates
that instance's `expanded` cell and changes nothing else: the cells of the
other instances and `inputText` keep their values, no supplied function is
applied; and a text-change event leaves all three `expanded` cells as they
were. The runtime applies any write a listener makes to whichever cell it
addresses, so this rests on the bodies of the components: the toggle listener
calls only the setter of its own instance, `handleInputChange` calls only
`setInputText`, and `Sidebar` passes no function to its children. -/
theorem sidebar_toggle_is_local (p : SidebarProps) (t : SidebarTree) (i j : Fin 3)
    (v : String) (hij : j ≠ i) :
    (SidebarTree.dispatch p t (.clickToggle i)).state.expanded i = !t.expanded i ∧
    (SidebarTree.dispatch p t (.clickToggle i)).state.expanded j = t.expanded j ∧
    (SidebarTree.dispatch p t (.clickToggle i)).state.inputText = t.inputText ∧
    (SidebarTree.dispatch p t (.clickToggle i)).calls = [] ∧
    (SidebarTree.dispatch p t (.change v)).state.expanded = t.expanded := by
  refine ⟨?_, ?_, ?_, ?_, ?_⟩
  · simp [SidebarTree.dispatch_clickToggle]
  · simp [SidebarTree.dispatch_clickToggle, Function.update_noteq hij]
  · simp [SidebarTree.dispatch_clickToggle]
  · simp [SidebarTree.dispatch_clickToggle]
  · simp [SidebarTree.dispatch_change]

/-- Witness for C8: on a fresh Sidebar, toggling the first item leaves the
second one collapsed. -/
theorem sidebar_toggle_is_local_witness :
    (1 : Fin 3) ≠ 0 ∧
    (SidebarTree.dispatch ⟨none, none, none⟩ SidebarTree.mount
      (.clickToggle 0)).state.expanded 0 = !SidebarTree.mount.expanded 0 ∧
    (SidebarTree.dispatch ⟨none, none, none⟩ SidebarTree.mount
      (.clickToggle 0)).state.expanded 1 = SidebarTree.mount.expanded 1 ∧
    (SidebarTree.dispatch ⟨none, none, none⟩ SidebarTree.mount
      (.clickToggle 0)).state.inputText = SidebarTree.mount.inputText ∧
    (SidebarTree.dispatch ⟨none, none, none⟩ SidebarTree.mount
      (.clickToggle 0)).calls = [] ∧
    (SidebarTree.dispatch ⟨none, none, none⟩ SidebarTree.mount
      (.change "add a footer")).state.expanded = SidebarTree.mount.expanded :=
  ⟨by decide, sidebar_toggle_is_local ⟨none, none, none⟩ SidebarTree.mount 0 1
    "add a footer" (by decide)⟩

end Splashscript
